import Mathlib

/-!
Shallow embedding of `src/screen.py`, an ST7735 128x128 SPI display driver.

The transport-visible behaviour of the driver is modelled as traces of
events (`Ev`): command frames, data frames, sleeps, GPIO pin writes, the
SPI-open attempt and the cleanup calls.  Pure computations (the RGB565
pixel packing and the frame-buffer construction of `display_image`) are
modelled as Lean functions on `Nat`.  A fallible transport is modelled by
an executor `runEvents` that raises (returns `.error`) on the (k+1)-th
write frame, mirroring a Python exception aborting the rest of the `try`
block of `main`.
-/

namespace Screen

/-- Pin assignments from `screen.py` (`DC`, `RST`, `CS`, `BL`). -/
def DC : Nat := 25

def RST : Nat := 27

def CS : Nat := 8

def BL : Nat := 24

/-- Panel width in pixels (`WIDTH = 128`). -/
def WIDTH : Nat := 128

/-- Panel height in pixels (`HEIGHT = 128`). -/
def HEIGHT : Nat := 128

def ST7735_SWRESET : Nat := 0x01

def ST7735_SLPOUT : Nat := 0x11

def ST7735_DISPON : Nat := 0x29

def ST7735_CASET : Nat := 0x2A

def ST7735_RASET : Nat := 0x2B

def ST7735_RAMWR : Nat := 0x2C

def ST7735_MADCTL : Nat := 0x36

def ST7735_COLMOD : Nat := 0x3A

/-- `rgb = ((r & 0xF8) << 8) | ((g & 0xFC) << 3) | (b >> 3)` from
`display_image` (screen.py line 92). -/
def packPixel (r g b : Nat) : Nat :=
  ((r &&& 0xF8) <<< 8) ||| ((g &&& 0xFC) <<< 3) ||| (b >>> 3)

/-- The two bytes appended per pixel: high byte `(rgb >> 8) & 0xFF` first,
then low byte `rgb & 0xFF` (screen.py lines 93-94). -/
def pixelBytes (r g b : Nat) : List Nat :=
  [(packPixel r g b >>> 8) &&& 0xFF, packPixel r g b &&& 0xFF]

/-- The buffer construction of `display_image` (screen.py lines 87-94):
`buf = []`, then for `y in range(HEIGHT)`, for `x in range(WIDTH)`,
append the high byte and then the low byte of the packed pixel.
An image is modelled as a pixel lookup `pix x y = (r, g, b)`,
corresponding to `pix[x, y]` on the converted RGB image. -/
def displayImageBuf (pix : Nat → Nat → Nat × Nat × Nat) : List Nat :=
  (List.range HEIGHT).foldl
    (fun buf y =>
      (List.range WIDTH).foldl
        (fun buf x =>
          (buf ++ [(packPixel (pix x y).1 (pix x y).2.1 (pix x y).2.2 >>> 8) &&& 0xFF])
            ++ [packPixel (pix x y).1 (pix x y).2.1 (pix x y).2.2 &&& 0xFF])
        buf)
    []

/-- Transport-visible events of the driver. -/
inductive Ev where
  /-- `write_command(spi, c)`: one command frame carrying byte `c`. -/
  | cmd (c : Nat) : Ev
  /-- `write_data(spi, d)`: one data frame carrying the byte list `d`. -/
  | data (d : List Nat) : Ev
  /-- `time.sleep` of the given number of milliseconds. -/
  | sleepMs (ms : Nat) : Ev
  /-- `GPIO.output(p, level)` with `true` for HIGH, `false` for LOW. -/
  | pin (p : Nat) (level : Bool) : Ev
  /-- The `luma_spi(...)` open attempt in `main`; `ok` is whether it succeeded. -/
  | spiOpen (ok : Bool) : Ev
  /-- `GPIO.cleanup()`. -/
  | gpioCleanup : Ev
  /-- `spi.cleanup()`. -/
  | spiCleanup : Ev
deriving DecidableEq

/-- Event trace of `lcd_init` (screen.py lines 58-75): the three reset-line
pulses with 100 ms holds, then SWRESET, 150 ms, SLPOUT, 150 ms, COLMOD with
data byte 0x05, DISPON, 100 ms. -/
def lcd_initEvents : List Ev :=
  [Ev.pin RST true, Ev.sleepMs 100,
   Ev.pin RST false, Ev.sleepMs 100,
   Ev.pin RST true, Ev.sleepMs 100,
   Ev.cmd ST7735_SWRESET, Ev.sleepMs 150,
   Ev.cmd ST7735_SLPOUT, Ev.sleepMs 150,
   Ev.cmd ST7735_COLMOD, Ev.data [0x05],
   Ev.cmd ST7735_DISPON, Ev.sleepMs 100]

/-- Event trace of `set_window(spi, x0, y0, x1, y1)` (screen.py lines 77-82). -/
def set_windowEvents (x0 y0 x1 y1 : Nat) : List Ev :=
  [Ev.cmd ST7735_CASET, Ev.data [0x00, x0, 0x00, x1],
   Ev.cmd ST7735_RASET, Ev.data [0x00, y0, 0x00, y1],
   Ev.cmd ST7735_RAMWR]

/-- Event trace of `display_image(spi, img)` (screen.py lines 84-97):
build the buffer, `set_window(spi, 0, 0, WIDTH-1, HEIGHT-1)`, then one
bulk data frame with the buffer. -/
def display_imageEvents (pix : Nat → Nat → Nat × Nat × Nat) : List Ev :=
  set_windowEvents 0 0 (WIDTH - 1) (HEIGHT - 1) ++ [Ev.data (displayImageBuf pix)]

/-- The solid red test image of `main` (`Image.new("RGB", ..., (255, 0, 0))`). -/
def redPix : Nat → Nat → Nat × Nat × Nat := fun _ _ => (255, 0, 0)

/-- The solid blue test image of `main` (`Image.new("RGB", ..., (0, 0, 255))`). -/
def bluePix : Nat → Nat → Nat × Nat × Nat := fun _ _ => (0, 0, 255)

/-- One iteration of the `while True` loop of `main` (screen.py lines
125-131): red frame, 5 s sleep, blue frame, 5 s sleep. -/
def iterEvents : List Ev :=
  display_imageEvents redPix ++ [Ev.sleepMs 5000]
    ++ display_imageEvents bluePix ++ [Ev.sleepMs 5000]

/-- The attempted events of the `try` block of `main` (screen.py lines
121-131) when it runs `fuel` loop iterations: `lcd_init` followed by
`fuel` copies of the loop body. -/
def tryBlockEvents (fuel : Nat) : List Ev :=
  lcd_initEvents ++ (List.replicate fuel iterEvents).flatten

/-- The `finally` block of `main` (screen.py lines 136-139): backlight
LOW, `GPIO.cleanup()`, `spi.cleanup()`. -/
def finallyEvents : List Ev :=
  [Ev.pin BL false, Ev.gpioCleanup, Ev.spiCleanup]

/-- The event trace of `main` (screen.py lines 99-140), starting from the
backlight-on write.  `openOk` is whether the `luma_spi` open succeeded;
`body` is the trace produced inside the `try` block before it ended (by
exhaustion, exception or interruption).  On open failure the code logs,
calls `GPIO.cleanup()` and returns: neither the backlight-off write nor
`spi.cleanup()` runs on that path.  Otherwise the `finally` block runs. -/
def mainTrace (openOk : Bool) (body : List Ev) : List Ev :=
  Ev.pin BL true ::
    (if openOk then Ev.spiOpen true :: (body ++ finallyEvents)
     else [Ev.spiOpen false, Ev.gpioCleanup])

/-- Is the event a transport write frame (a `spi_interface.command` or
`spi_interface.data` call, the calls that can raise mid-session)? -/
def isWrite : Ev → Bool
  | Ev.cmd _ => true
  | Ev.data _ => true
  | _ => false

/-- Number of transport write frames in a trace. -/
def writeCount (l : List Ev) : Nat :=
  (l.filter isWrite).length

/-- Execute a straight-line event sequence against a transport that
raises an exception on its (k+1)-th write frame, where `k` is the budget
of remaining successful writes.  Non-write events always happen.  On the
failing write the exception aborts everything after it (none of the
intermediate functions of screen.py catch exceptions), returning the
trace of events that did happen. -/
def runEvents : List Ev → Nat → List Ev → Except (List Ev) (Nat × List Ev)
  | [], k, t => Except.ok (k, t)
  | e :: rest, k, t =>
    if isWrite e then
      match k with
      | 0 => Except.error t
      | k + 1 => runEvents rest k (t ++ [e])
    else runEvents rest k (t ++ [e])

/-- The events that happen before the (k+1)-th write frame of `l`. -/
def takeWrites : List Ev → Nat → List Ev
  | [], _ => []
  | e :: rest, k =>
    if isWrite e then
      match k with
      | 0 => []
      | k + 1 => e :: takeWrites rest k
    else e :: takeWrites rest k

/-- The events from the (k+1)-th write frame of `l` onward. -/
def dropWrites : List Ev → Nat → List Ev
  | [], _ => []
  | e :: rest, k =>
    if isWrite e then
      match k with
      | 0 => e :: rest
      | k + 1 => dropWrites rest k
    else dropWrites rest k

/-- How a run of `main` ends at this model's level of abstraction. -/
inductive MainExit where
  /-- `main` returned normally (its handlers caught whatever was raised). -/
  | normalReturn : MainExit
  /-- The modelled iterations ran out with no failure; the real loop keeps going. -/
  | stillLooping : MainExit
  /-- An exception escaped `main` to its caller.  No path of the code produces this. -/
  | raisedOut : MainExit
deriving DecidableEq

/-- `main` (screen.py lines 99-140) run against a transport whose
(k+1)-th write frame raises, modelling `fuel` attempted loop iterations.
A raised exception lands in the `except Exception` handler (screen.py
line 134), which logs it and falls through to `finally`; `main` then
returns normally. -/
def mainRun (k fuel : Nat) : List Ev × MainExit :=
  match runEvents (tryBlockEvents fuel) k [] with
  | Except.error t => (mainTrace true t, MainExit.normalReturn)
  | Except.ok (_, t) => (Ev.pin BL true :: Ev.spiOpen true :: t, MainExit.stillLooping)

/-- Command bytes of a trace, in order. -/
def cmdsOf (l : List Ev) : List Nat :=
  l.filterMap fun e =>
    match e with
    | Ev.cmd c => some c
    | _ => none

/-- The part of the trace strictly after the first command frame with byte `c`. -/
def afterCmd (c : Nat) : List Ev → List Ev
  | [] => []
  | Ev.cmd c2 :: rest => if c2 = c then rest else afterCmd c rest
  | _ :: rest => afterCmd c rest

/-- Group a trace into frames: each command byte paired with the payloads
of the data frames that follow it before the next command. -/
def framesGo : Option (Nat × List (List Nat)) → List Ev → List (Nat × List (List Nat))
  | none, [] => []
  | some f, [] => [f]
  | none, Ev.cmd c :: rest => framesGo (some (c, [])) rest
  | none, _ :: rest => framesGo none rest
  | some (c, ds), Ev.cmd c2 :: rest => (c, ds) :: framesGo (some (c2, [])) rest
  | some (c, ds), Ev.data d :: rest => framesGo (some (c, ds ++ [d])) rest
  | some f, _ :: rest => framesGo (some f) rest

/-- Command/data frame structure of a trace. -/
def framesOf (l : List Ev) : List (Nat × List (List Nat)) :=
  framesGo none l

/-! ## Theorems -/

/-- A left fold whose step appends a per-element block is a flatMap. -/
theorem foldl_append_flatMap {α β : Type} (g : List β → α → List β) (f : α → List β)
    (h : ∀ b y, g b y = b ++ f y) (l : List α) (init : List β) :
    l.foldl g init = init ++ l.flatMap f := by
  induction l generalizing init with
  | nil => simp
  | cons a l ih => simp [h, ih, List.append_assoc]

/-- The buffer of `display_image` is the row-major flatMap of the
per-pixel byte pairs. -/
theorem displayImageBuf_eq (pix : Nat → Nat → Nat × Nat × Nat) :
    displayImageBuf pix =
      (List.range HEIGHT).flatMap fun y =>
        (List.range WIDTH).flatMap fun x =>
          pixelBytes (pix x y).1 (pix x y).2.1 (pix x y).2.2 := by
  have hinner : ∀ (b : List Nat) (y : Nat),
      (List.range WIDTH).foldl
        (fun buf x =>
          (buf ++ [(packPixel (pix x y).1 (pix x y).2.1 (pix x y).2.2 >>> 8) &&& 0xFF])
            ++ [packPixel (pix x y).1 (pix x y).2.1 (pix x y).2.2 &&& 0xFF]) b
        = b ++ (List.range WIDTH).flatMap fun x =>
            pixelBytes (pix x y).1 (pix x y).2.1 (pix x y).2.2 :=
    fun b y =>
      foldl_append_flatMap _ _ (fun b2 x => List.append_assoc _ _ _) _ _
  exact (foldl_append_flatMap _ _ hinner (List.range HEIGHT) []).trans
    (List.nil_append _)

/-- A flatMap whose blocks all have length `n` has length `l.length * n`. -/
theorem length_flatMap_const {α : Type} (l : List α) (f : α → List Nat) (n : Nat)
    (h : ∀ a, (f a).length = n) : (l.flatMap f).length = l.length * n := by
  induction l with
  | nil => simp
  | cons a l ih => simp [List.flatMap_cons, h, ih, Nat.succ_mul, Nat.add_comm]

/-- Claim C1: `display_image`'s buffer construction visits pixels in
row-major order (y outer, x inner, both over `range 128`), packs each
pixel as `((R & 0xF8) << 8) | ((G & 0xFC) << 3) | (B >> 3)`, appends the
high byte `(packed >> 8) & 0xFF` then the low byte `packed & 0xFF`, and
the resulting byte sequence has length `2 * WIDTH * HEIGHT = 32768`. -/
theorem C1_encode_row_major (pix : Nat → Nat → Nat × Nat × Nat) :
    (displayImageBuf pix =
      (List.range HEIGHT).flatMap fun y =>
        (List.range WIDTH).flatMap fun x =>
          pixelBytes (pix x y).1 (pix x y).2.1 (pix x y).2.2) ∧
    (displayImageBuf pix).length = 2 * WIDTH * HEIGHT ∧
    2 * WIDTH * HEIGHT = 32768 := by
  refine ⟨displayImageBuf_eq pix, ?_, by decide⟩
  have hrow : ∀ y : Nat,
      ((List.range WIDTH).flatMap fun x =>
        pixelBytes (pix x y).1 (pix x y).2.1 (pix x y).2.2).length = 256 := by
    intro y
    rw [length_flatMap_const (List.range WIDTH)
      (fun x => pixelBytes (pix x y).1 (pix x y).2.1 (pix x y).2.2) 2 fun x => rfl,
      List.length_range]
    decide
  rw [displayImageBuf_eq pix, length_flatMap_const _ _ 256 hrow, List.length_range]
  decide

/-- Claim C2: after the reset-line pulses, `lcd_init` emits command bytes
in the exact order `[0x01, 0x11, 0x3A, 0x29]`; the 0x3A command is
followed by exactly the data frame `[0x05]` before the next command; and
the waits are 150 ms after 0x01, 150 ms after 0x11 and 100 ms after
0x29. -/
theorem C2_lcd_init_commands :
    cmdsOf (lcd_initEvents.drop 6) =
      [ST7735_SWRESET, ST7735_SLPOUT, ST7735_COLMOD, ST7735_DISPON] ∧
    afterCmd ST7735_COLMOD (lcd_initEvents.drop 6) =
      [Ev.data [0x05], Ev.cmd ST7735_DISPON, Ev.sleepMs 100] ∧
    (afterCmd ST7735_SWRESET (lcd_initEvents.drop 6)).head? = some (Ev.sleepMs 150) ∧
    (afterCmd ST7735_SLPOUT (lcd_initEvents.drop 6)).head? = some (Ev.sleepMs 150) ∧
    (afterCmd ST7735_DISPON (lcd_initEvents.drop 6)).head? = some (Ev.sleepMs 100) ∧
    150 ≥ 150 ∧ 100 ≥ 100 := by
  decide

/-- Claim C3: `set_window(x0,y0,x1,y1)` emits CASET with data
`[0x00, x0, 0x00, x1]`, RASET with data `[0x00, y0, 0x00, y1]`, then
RAMWR with no trailing data; at `(0,0,127,127)` this is exactly two
command+data frame pairs followed by one command-only frame. -/
theorem C3_set_window_frames (x0 y0 x1 y1 : Nat) :
    set_windowEvents x0 y0 x1 y1 =
      [Ev.cmd ST7735_CASET, Ev.data [0x00, x0, 0x00, x1],
       Ev.cmd ST7735_RASET, Ev.data [0x00, y0, 0x00, y1],
       Ev.cmd ST7735_RAMWR] ∧
    framesOf (set_windowEvents 0 0 127 127) =
      [(ST7735_CASET, [[0x00, 0, 0x00, 127]]),
       (ST7735_RASET, [[0x00, 0, 0x00, 127]]),
       (ST7735_RAMWR, [])] :=
  ⟨rfl, by decide⟩

/-- Claim C4: the pixel packing yields `[0xF8, 0x00]` for pure red,
`[0x07, 0xE0]` for pure green, `[0x00, 0x1F]` for pure blue and
`[0xFF, 0xFF]` for white. -/
theorem C4_pixel_examples :
    pixelBytes 0xFF 0x00 0x00 = [0xF8, 0x00] ∧
    pixelBytes 0x00 0xFF 0x00 = [0x07, 0xE0] ∧
    pixelBytes 0x00 0x00 0xFF = [0x00, 0x1F] ∧
    pixelBytes 0xFF 0xFF 0xFF = [0xFF, 0xFF] := by
  decide

/-- Claim C9: the pixel packing is not injective — pixels that agree on
`R & 0xF8`, `G & 0xFC` and `B >> 3` encode to identical byte pairs, so
the discarded low bits are unrecoverable; in particular two distinct
pixels collide. -/
theorem C9_packing_not_injective :
    (∀ r g b r2 g2 b2 : Nat,
      r &&& 0xF8 = r2 &&& 0xF8 → g &&& 0xFC = g2 &&& 0xFC → b >>> 3 = b2 >>> 3 →
      pixelBytes r g b = pixelBytes r2 g2 b2) ∧
    pixelBytes 0xFF 0x00 0x00 = pixelBytes 0xF8 0x03 0x07 ∧
    ((0xFF, 0x00, 0x00) : Nat × Nat × Nat) ≠ (0xF8, 0x03, 0x07) := by
  refine ⟨?_, by decide, by decide⟩
  intro r g b r2 g2 b2 h1 h2 h3
  simp only [pixelBytes, packPixel, h1, h2, h3]

/-- Witness for C9: the theorem applied at the concrete colliding pair
(0xFF,0,0) and (0xF8,3,7). -/
theorem C9_packing_not_injective_witness :
    pixelBytes 0xFF 0x00 0x00 = pixelBytes 0xF8 0x03 0x07 :=
  C9_packing_not_injective.1 0xFF 0x00 0x00 0xF8 0x03 0x07
    (by decide) (by decide) (by decide)

/-- Claim C10: for 8-bit channels the packed value fits in 16 bits and
both emitted bytes are in 0-255, so every byte of the encoded frame
buffer is a valid transmit byte. -/
theorem C10_pack_fits (r g b : Nat) (hr : r < 256) (hg : g < 256) (hb : b < 256) :
    packPixel r g b < 65536 ∧
    (packPixel r g b >>> 8) &&& 0xFF < 256 ∧
    packPixel r g b &&& 0xFF < 256 ∧
    ∀ v ∈ pixelBytes r g b, v < 256 := by
  have h1 : (r &&& 0xF8) <<< 8 < 2 ^ 16 := by
    have hand : r &&& 0xF8 ≤ 0xF8 := Nat.and_le_right
    calc (r &&& 0xF8) <<< 8 = (r &&& 0xF8) * 2 ^ 8 := Nat.shiftLeft_eq _ _
      _ ≤ 0xF8 * 2 ^ 8 := Nat.mul_le_mul_right _ hand
      _ < 2 ^ 16 := by norm_num
  have h2 : (g &&& 0xFC) <<< 3 < 2 ^ 16 := by
    have hand : g &&& 0xFC ≤ 0xFC := Nat.and_le_right
    calc (g &&& 0xFC) <<< 3 = (g &&& 0xFC) * 2 ^ 3 := Nat.shiftLeft_eq _ _
      _ ≤ 0xFC * 2 ^ 3 := Nat.mul_le_mul_right _ hand
      _ < 2 ^ 16 := by norm_num
  have h3 : b >>> 3 < 2 ^ 16 := by
    calc b >>> 3 = b / 2 ^ 3 := Nat.shiftRight_eq_div_pow _ _
      _ ≤ b := Nat.div_le_self _ _
      _ < 2 ^ 16 := lt_trans hb (by norm_num)
  have hp : packPixel r g b < 2 ^ 16 :=
    Nat.or_lt_two_pow (Nat.or_lt_two_pow h1 h2) h3
  have hhi : (packPixel r g b >>> 8) &&& 0xFF < 256 :=
    lt_of_le_of_lt Nat.and_le_right (by norm_num)
  have hlo : packPixel r g b &&& 0xFF < 256 :=
    lt_of_le_of_lt Nat.and_le_right (by norm_num)
  refine ⟨by simpa using hp, hhi, hlo, ?_⟩
  intro v hv
  simp only [pixelBytes, List.mem_cons, List.not_mem_nil, or_false] at hv
  rcases hv with h | h
  · exact h ▸ hhi
  · exact h ▸ hlo

/-- Witness for C10: the theorem applied at the white pixel
(255,255,255). -/
theorem C10_pack_fits_witness :
    (255 : Nat) < 256 ∧
    (packPixel 255 255 255 < 65536 ∧
     (packPixel 255 255 255 >>> 8) &&& 0xFF < 256 ∧
     packPixel 255 255 255 &&& 0xFF < 256 ∧
     ∀ v ∈ pixelBytes 255 255 255, v < 256) :=
  ⟨by decide, C10_pack_fits 255 255 255 (by decide) (by decide) (by decide)⟩

/-- Claim C8: the reset sequence at the start of `lcd_init` drives the
reset line high, low, high, holding 100 ms (≥ 100 ms) after each edge,
in exactly that order. -/
theorem C8_reset_pulses :
    lcd_initEvents.take 6 =
      [Ev.pin RST true, Ev.sleepMs 100, Ev.pin RST false, Ev.sleepMs 100,
       Ev.pin RST true, Ev.sleepMs 100] ∧
    100 ≥ 100 := by
  decide

/-- Claim C5 counterexample: in the execution where the SPI transport
fails to open (`luma_spi` raises, screen.py lines 116-119), `main` only
calls `GPIO.cleanup()` and returns — the backlight-disable write and
`spi.cleanup()` are never invoked, so they are not invoked exactly once
on every exit path. -/
theorem C5_counterexample :
    (mainTrace false []).count (Ev.pin BL false) = 0 ∧
    ¬(mainTrace false []).count (Ev.pin BL false) = 1 ∧
    (mainTrace false []).count Ev.spiCleanup = 0 ∧
    (mainTrace false []).count Ev.gpioCleanup = 1 := by
  decide

/-- Claim C5 amended: when the SPI transport opens, every ending of the
driver session (normal completion, interruption, or an exception in the
`try` block) runs backlight-disable, GPIO cleanup and SPI cleanup exactly
once each; when the SPI open itself fails, only GPIO cleanup runs (once),
and backlight-disable and SPI cleanup are not invoked. -/
theorem C5_shutdown_amended (body : List Ev)
    (h1 : Ev.pin BL false ∉ body) (h2 : Ev.gpioCleanup ∉ body)
    (h3 : Ev.spiCleanup ∉ body) :
    ((mainTrace true body).count (Ev.pin BL false) = 1 ∧
     (mainTrace true body).count Ev.gpioCleanup = 1 ∧
     (mainTrace true body).count Ev.spiCleanup = 1) ∧
    ((mainTrace false body).count Ev.gpioCleanup = 1 ∧
     (mainTrace false body).count (Ev.pin BL false) = 0 ∧
     (mainTrace false body).count Ev.spiCleanup = 0) := by
  have c1 : body.count (Ev.pin BL false) = 0 := List.count_eq_zero.mpr h1
  have c2 : body.count Ev.gpioCleanup = 0 := List.count_eq_zero.mpr h2
  have c3 : body.count Ev.spiCleanup = 0 := List.count_eq_zero.mpr h3
  have ht : mainTrace true body
      = [Ev.pin BL true, Ev.spiOpen true] ++ (body ++ finallyEvents) := rfl
  have hf : mainTrace false body
      = [Ev.pin BL true, Ev.spiOpen false, Ev.gpioCleanup] := rfl
  refine ⟨⟨?_, ?_, ?_⟩, ?_, ?_, ?_⟩
  · rw [ht, List.count_append, List.count_append, c1]; decide
  · rw [ht, List.count_append, List.count_append, c2]; decide
  · rw [ht, List.count_append, List.count_append, c3]; decide
  · rw [hf]; decide
  · rw [hf]; decide
  · rw [hf]; decide

/-- Witness for C5's amended theorem at the empty `try`-block trace. -/
theorem C5_shutdown_witness :
    Ev.pin BL false ∉ ([] : List Ev) ∧
    Ev.gpioCleanup ∉ ([] : List Ev) ∧
    Ev.spiCleanup ∉ ([] : List Ev) ∧
    ((((mainTrace true []).count (Ev.pin BL false) = 1 ∧
       (mainTrace true []).count Ev.gpioCleanup = 1 ∧
       (mainTrace true []).count Ev.spiCleanup = 1) ∧
      ((mainTrace false []).count Ev.gpioCleanup = 1 ∧
       (mainTrace false []).count (Ev.pin BL false) = 0 ∧
       (mainTrace false []).count Ev.spiCleanup = 0))) :=
  ⟨by decide, by decide, by decide,
    C5_shutdown_amended [] (by decide) (by decide) (by decide)⟩

/-- Claim C7 counterexample: for the quadruple (200,0,100,0) — x0 out of
the 0-127 range and x0 > x1 — `set_window` neither rejects nor clamps:
it emits the out-of-range, inverted window to the panel verbatim. -/
theorem C7_counterexample :
    ¬(200 : Nat) ≤ 127 ∧ ¬(200 : Nat) ≤ 100 ∧
    set_windowEvents 200 0 100 0 =
      [Ev.cmd ST7735_CASET, Ev.data [0x00, 200, 0x00, 100],
       Ev.cmd ST7735_RASET, Ev.data [0x00, 0, 0x00, 0],
       Ev.cmd ST7735_RAMWR] := by
  decide

/-- Claim C7 amended: `set_window` performs no coordinate validation:
for every quadruple violating x0 ≤ x1, y0 ≤ y1 or the 0-127 range, it
still emits the CASET/RASET/RAMWR frames with the coordinates passed
through unmodified. -/
theorem C7_no_validation_amended (x0 y0 x1 y1 : Nat)
    (h : ¬(x0 ≤ x1 ∧ y0 ≤ y1 ∧ x1 ≤ 127 ∧ y1 ≤ 127)) :
    framesOf (set_windowEvents x0 y0 x1 y1) =
      [(ST7735_CASET, [[0x00, x0, 0x00, x1]]),
       (ST7735_RASET, [[0x00, y0, 0x00, y1]]),
       (ST7735_RAMWR, [])] :=
  rfl

/-- Witness for C7's amended theorem at the violating quadruple
(200,0,100,0). -/
theorem C7_no_validation_witness :
    ¬((200 : Nat) ≤ 100 ∧ (0 : Nat) ≤ 0 ∧ (100 : Nat) ≤ 127 ∧ (0 : Nat) ≤ 127) ∧
    framesOf (set_windowEvents 200 0 100 0) =
      [(ST7735_CASET, [[0x00, 200, 0x00, 100]]),
       (ST7735_RASET, [[0x00, 0, 0x00, 0]]),
       (ST7735_RAMWR, [])] :=
  ⟨by decide, C7_no_validation_amended 200 0 100 0 (by decide)⟩

/-- If the failure budget runs out before the writes do, the executor
raises, and the events that happened are exactly those before the
failing write. -/
theorem runEvents_error (evs : List Ev) :
    ∀ (k : Nat) (t : List Ev), k < writeCount evs →
      runEvents evs k t = Except.error (t ++ takeWrites evs k) := by
  induction evs with
  | nil =>
    intro k t h
    simp [writeCount] at h
  | cons e rest ih =>
    intro k t h
    by_cases hw : isWrite e
    · cases k with
      | zero => simp [runEvents, hw, takeWrites]
      | succ k =>
        have h2 : k < writeCount rest := by
          simp only [writeCount, List.filter_cons, hw, ite_true,
            List.length_cons] at h ⊢
          omega
        simp [runEvents, hw, takeWrites, ih k (t ++ [e]) h2, List.append_assoc]
    · have h2 : k < writeCount rest := by
        simp only [writeCount, List.filter_cons, hw, ite_false,
          Bool.false_eq_true] at h
        exact h
      simp [runEvents, hw, takeWrites, ih k (t ++ [e]) h2, List.append_assoc]

/-- The write frames that happen in a failing run are exactly the first
`k` write frames of the attempted sequence — each attempted at most
once, none repeated. -/
theorem takeWrites_filter (evs : List Ev) :
    ∀ k, (takeWrites evs k).filter isWrite = (evs.filter isWrite).take k := by
  induction evs with
  | nil => intro k; simp [takeWrites]
  | cons e rest ih =>
    intro k
    by_cases hw : isWrite e
    · cases k with
      | zero => simp [takeWrites, hw, List.filter_cons]
      | succ k => simp [takeWrites, hw, List.filter_cons, ih]
    · simp [takeWrites, hw, List.filter_cons, ih]

/-- The happened events are an initial segment of the attempted event
sequence: nothing is reordered or retried. -/
theorem takeWrites_append_dropWrites (evs : List Ev) :
    ∀ k, takeWrites evs k ++ dropWrites evs k = evs := by
  induction evs with
  | nil => intro k; simp [takeWrites, dropWrites]
  | cons e rest ih =>
    intro k
    by_cases hw : isWrite e
    · cases k with
      | zero => simp [takeWrites, dropWrites, hw]
      | succ k => simp [takeWrites, dropWrites, hw, ih]
    · simp [takeWrites, dropWrites, hw, ih]

/-- Claim C6 counterexample: with a transport whose very first write
frame of the session raises, `main` catches the exception
(`except Exception`, screen.py line 134), runs cleanup and returns
normally — the error is not propagated upward out of `main` to its
caller. -/
theorem C6_counterexample :
    (mainRun 0 1).2 = MainExit.normalReturn ∧
    (mainRun 0 1).2 ≠ MainExit.raisedOut := by
  decide

/-- Claim C6 amended: when a write frame fails mid-session (the (k+1)-th
write of the `try` block, for any attempted iteration count), the
exception propagates from the failing write up to `main`'s
`except Exception` handler with no retry — the events that happened are
exactly the initial segment of the attempted sequence up to the failing
write, each write attempted at most once — shutdown cleanup still
executes, and `main` then swallows the error and returns normally
instead of re-raising it. -/
theorem C6_write_failure_amended (k fuel : Nat)
    (h : k < writeCount (tryBlockEvents fuel)) :
    mainRun k fuel =
      (mainTrace true (takeWrites (tryBlockEvents fuel) k),
       MainExit.normalReturn) ∧
    (takeWrites (tryBlockEvents fuel) k).filter isWrite =
      ((tryBlockEvents fuel).filter isWrite).take k ∧
    takeWrites (tryBlockEvents fuel) k ++ dropWrites (tryBlockEvents fuel) k =
      tryBlockEvents fuel ∧
    ∃ pre, (mainRun k fuel).1 = pre ++ finallyEvents := by
  have he := runEvents_error (tryBlockEvents fuel) k [] h
  have h1 : mainRun k fuel =
      (mainTrace true (takeWrites (tryBlockEvents fuel) k),
       MainExit.normalReturn) := by
    unfold mainRun
    rw [he, List.nil_append]
  refine ⟨h1, takeWrites_filter _ _, takeWrites_append_dropWrites _ _,
    Ev.pin BL true :: Ev.spiOpen true :: takeWrites (tryBlockEvents fuel) k, ?_⟩
  rw [h1]
  rfl

/-- Witness for C6's amended theorem: the transport fails on the first
write of a one-iteration session. -/
theorem C6_write_failure_witness :
    0 < writeCount (tryBlockEvents 1) ∧
    (mainRun 0 1 =
      (mainTrace true (takeWrites (tryBlockEvents 1) 0),
       MainExit.normalReturn) ∧
    (takeWrites (tryBlockEvents 1) 0).filter isWrite =
      ((tryBlockEvents 1).filter isWrite).take 0 ∧
    takeWrites (tryBlockEvents 1) 0 ++ dropWrites (tryBlockEvents 1) 0 =
      tryBlockEvents 1 ∧
    ∃ pre, (mainRun 0 1).1 = pre ++ finallyEvents) :=
  ⟨by decide, C6_write_failure_amended 0 1 (by decide)⟩

end Screen
